import Mathlib

/-!
Verification of the DualShellCommander update/extract pipeline
(`src/network_update.c`).

The pipeline is embedded shallowly.  External collaborators
(network, archive codec, dialog toolkit, power manager, threads) are
modelled by an environment record that fixes the result each external
call returns in a given run, and the two worker entry points
(`network_update_thread`, `update_extract_thread`) are translated,
branch for branch, into functions from that environment to the finite
trace of observable actions the run performs.  The installer routine
(`installUpdater`) is additionally given a filesystem semantics so
that idempotence can be stated.
-/

/-- The dialog step values used by this pipeline (`DIALOG_STEP_*`).
`ERROR` is the terminal marker that the error-dialog collaborator
installs (see `errorDialogStep`); `OTHER n` stands for the
domain-specific steps outside this pipeline's concern. -/
inductive DialogStep where
  | NONE
  | UPDATE_QUESTION
  | DOWNLOADED
  | EXTRACTED
  | CANCELED
  | ERROR
  | OTHER (n : Nat)
  deriving DecidableEq, Repr

/-- Opaque file contents: the two embedded updater blobs, directory
entries, the generated header file, and arbitrary pre-existing data. -/
inductive Blob where
  | dir
  | ebootBin
  | paramSfo
  | headBin
  | data (n : Nat)
  deriving DecidableEq, Repr

/-- Observable actions performed by the pipeline's workers, in program
order.  Each constructor corresponds to one call site in
`src/network_update.c`. -/
inductive Event where
  | powerLock
  | powerUnlock
  | progressSet (v : Nat)
  | delay
  | removePath (p : String)
  | mkdir (p : String)
  | writeFile (p : String) (b : Blob)
  | makeHeadBin
  | promoteApp (p : String)
  | archiveClearPassword
  | archiveOpen (p : String)
  | spawnWorker (max : Nat)
  | extract (src dst : String)
  | ioRemove (p : String)
  | closeWaitDialog
  | errorDialog (code : Int)
  | initMessageDialog (s : String)
  | setDialogStep (s : DialogStep)
  | msgDialogClose
  | waitThreadEnd
  | sizeQuery (url : String)
  | downloadFile (url dst : String)
  | readFile (p : String)
  | waitDialogResponse
  | downloadFileProcess (url dst : String)
  deriving DecidableEq, Repr

def BASE_ADDRESS : String :=
  "https://raw.githubusercontent.com/TheOfficialFloW/DualShellCommander/master/releases/download"

def VERSION_URL : String := "/0.2/version.bin"

def DUALSHELLCOMMANDER_UPDATE_FILE : String :=
  "ux0:DualShellCommander/internal/DualShellCommander.vpk"

def DUALSHELLCOMMANDER_VERSION_FILE : String :=
  "ux0:DualShellCommander/internal/version.bin"

/-- The package staging directory (`PACKAGE_DIR`).  The macro lives in a
header outside `src/`; its value is pinned by the hard-coded sibling
paths `ux0:data/pkg/sce_sys`, `ux0:data/pkg/eboot.bin` and
`ux0:data/pkg/sce_sys/param.sfo` in `installUpdater`. -/
def PACKAGE_DIR : String := "ux0:data/pkg"

/-- Modelled from the spec: `makeHeadBin` (in `package_installer.c`,
not under `src/`) "constructs a required header/manifest file for the
staged package" at a fixed path under the staging directory. -/
def HEAD_BIN_PATH : String := "ux0:data/pkg/sce_sys/package/head.bin"

/-- Modelled from the spec: the error-dialog collaborator
(`errorDialog`, in `message_dialog.c`, not under `src/`) shows "a
generic error dialog keyed by a numeric result code" with the "dialog
step set to a terminal failure/cancel marker". -/
def errorDialogStep : DialogStep := DialogStep.ERROR

/-- Whether a dialog step is a terminal failure/cancel marker. -/
def isTerminalMark : DialogStep → Bool
  | DialogStep.CANCELED => true
  | DialogStep.ERROR => true
  | _ => false

/-- The dialog step after a trace of events has run, starting from
`s0`.  `setDialogStep` writes the store directly; `errorDialog` writes
it through the modelled collaborator (`errorDialogStep`); no other
event touches it. -/
def stepAfterEvents (s0 : DialogStep) (tr : List Event) : DialogStep :=
  tr.foldl
    (fun s e =>
      match e with
      | Event.setDialogStep s2 => s2
      | Event.errorDialog _ => errorDialogStep
      | _ => s) s0

/-- Results of the external calls made by one run of
`update_extract_thread`.  `spawnThid` is the id returned by
`createStartUpdateThread` (negative means the worker did not start). -/
structure ExtractEnv where
  archiveOpenRes : Int
  size : Nat
  folders : Nat
  files : Nat
  dirWeight : Nat
  spawnThid : Int
  extractRes : Int
  makeHeadBinRes : Int
  deriving Repr

/-- The progress maximum computed at lines 143/150:
`size + folders * DIRECTORY_SIZE`.  The weight constant lives in a
header outside `src/`, so it is a parameter here. -/
def progressMax (size folders weight : Nat) : Nat :=
  size + folders * weight

/-- Trace of `installUpdater` (lines 89-106): recursively clear and
recreate the staging directory, create the metadata subdirectory,
write the two embedded blobs, build the header file, promote. -/
def installUpdaterEvents : List Event :=
  [Event.removePath PACKAGE_DIR,
   Event.mkdir PACKAGE_DIR,
   Event.mkdir "ux0:data/pkg/sce_sys",
   Event.writeFile "ux0:data/pkg/eboot.bin" Blob.ebootBin,
   Event.writeFile "ux0:data/pkg/sce_sys/param.sfo" Blob.paramSfo,
   Event.makeHeadBin,
   Event.promoteApp PACKAGE_DIR]

/-- The `EXIT` tail of `update_extract_thread` (lines 182-189): join
the progress worker when it was started, then release the power
lock. -/
def extractExitEvents (thid : Int) : List Event :=
  (if 0 ≤ thid then [Event.waitThreadEnd] else []) ++ [Event.powerUnlock]

/-- Trace of one run of `update_extract_thread` (lines 108-190) under
environment `env`, translated branch for branch from the source. -/
def update_extract_thread (env : ExtractEnv) : List Event :=
  let pre : List Event :=
    [Event.powerLock, Event.progressSet 0, Event.delay]
      ++ installUpdaterEvents
      ++ [Event.removePath PACKAGE_DIR, Event.mkdir PACKAGE_DIR,
          Event.archiveClearPassword,
          Event.archiveOpen DUALSHELLCOMMANDER_UPDATE_FILE]
  if env.archiveOpenRes < 0 then
    pre ++ [Event.closeWaitDialog, Event.errorDialog env.archiveOpenRes]
      ++ extractExitEvents (-1)
  else
    let maxv := progressMax env.size env.folders env.dirWeight
    let running := pre
      ++ [Event.spawnWorker maxv,
          Event.extract (DUALSHELLCOMMANDER_UPDATE_FILE ++ "/") (PACKAGE_DIR ++ "/")]
    if env.extractRes ≤ 0 then
      running
        ++ [Event.closeWaitDialog, Event.setDialogStep DialogStep.CANCELED,
            Event.errorDialog env.extractRes]
        ++ extractExitEvents env.spawnThid
    else
      let fin := running
        ++ [Event.ioRemove DUALSHELLCOMMANDER_UPDATE_FILE, Event.makeHeadBin]
      if env.makeHeadBinRes < 0 then
        fin ++ [Event.closeWaitDialog, Event.errorDialog env.makeHeadBinRes]
          ++ extractExitEvents env.spawnThid
      else
        fin ++ [Event.progressSet 100, Event.delay, Event.msgDialogClose,
                Event.setDialogStep DialogStep.EXTRACTED]
          ++ extractExitEvents env.spawnThid

/-- Results of the external calls made by one run of
`network_update_thread`.  `readOk` is whether `ReadFile` actually
delivered the 4 descriptor bytes (its result is not checked by the
code), `step0` the dialog step observed at line 54, and
`userResponse` the step the UI wrote to end the wait loop (it is some
step other than `UPDATE_QUESTION`). -/
structure CheckEnv where
  sizeQueryRes : Int
  remoteSize : Nat
  downloadRes : Int
  readOk : Bool
  readVersion : Nat
  step0 : DialogStep
  userResponse : DialogStep
  deriving Repr

/-- Hex digit character, uppercase, as produced by `%X`. -/
def hexChar (n : Nat) : Char :=
  if n < 10 then Char.ofNat (48 + n) else Char.ofNat (55 + n)

/-- `%X` on a byte value: one hex digit below 16, two otherwise. -/
def hexByte (n : Nat) : List Char :=
  if n < 16 then [hexChar n] else [hexChar (n / 16), hexChar (n % 16)]

/-- `%02X` on a byte value: exactly two hex digits, zero padded. -/
def hexByte2 (n : Nat) : List Char :=
  [hexChar (n / 16 % 16), hexChar (n % 16)]

/-- Core of the version-string formatting (lines 57-63) on the already
extracted major/minor bytes: `sprintf(s, "%X.%02X", major, minor)`
followed by `if (s[3] == '0') s[3] = '\0';` — writing the terminator
at index 3 truncates the C string there. -/
def formatVersionCore (major minor : Nat) : String :=
  let cs := hexByte major ++ ['.'] ++ hexByte2 minor
  let cs2 := if cs.get? 3 = some '0' then cs.take 3 else cs
  String.mk cs2

/-- Major byte of an encoded version: `(version >> 0x18) & 0xFF`. -/
def versionMajor (v : Nat) : Nat := v / 2 ^ 24 % 256

/-- Minor byte of an encoded version: `(version >> 0x10) & 0xFF`. -/
def versionMinor (v : Nat) : Nat := v / 2 ^ 16 % 256

/-- The version string built by `network_update_thread` for an encoded
version value. -/
def formatVersion (v : Nat) : String :=
  formatVersionCore (versionMajor v) (versionMinor v)

/-- Trace of one run of `network_update_thread` (lines 41-87) under
environment `env`, with the embedded running version
`DUALSHELLCOMMANDER_VERSION` (a build constant outside `src/`) as the
parameter `running`.  The version variable is initialized to 0 and the
`ReadFile` result is never checked, so a failed read leaves it 0. -/
def network_update_thread (running : Nat) (env : CheckEnv) : List Event :=
  if 0 ≤ env.sizeQueryRes ∧ env.remoteSize = 4 then
    if env.downloadRes ≤ 0 then
      [Event.sizeQuery (BASE_ADDRESS ++ VERSION_URL),
       Event.downloadFile (BASE_ADDRESS ++ VERSION_URL) DUALSHELLCOMMANDER_VERSION_FILE]
    else
      let version := if env.readOk then env.readVersion else 0
      let base :=
        [Event.sizeQuery (BASE_ADDRESS ++ VERSION_URL),
         Event.downloadFile (BASE_ADDRESS ++ VERSION_URL) DUALSHELLCOMMANDER_VERSION_FILE,
         Event.readFile DUALSHELLCOMMANDER_VERSION_FILE,
         Event.ioRemove DUALSHELLCOMMANDER_VERSION_FILE]
      if env.step0 = DialogStep.NONE then
        if running < version then
          let asked := base
            ++ [Event.initMessageDialog (formatVersion version),
                Event.setDialogStep DialogStep.UPDATE_QUESTION,
                Event.waitDialogResponse]
          if env.userResponse = DialogStep.NONE then
            asked
          else
            asked
              ++ [Event.downloadFileProcess
                    (BASE_ADDRESS ++ "/DualShellCommander.vpk")
                    DUALSHELLCOMMANDER_UPDATE_FILE]
        else base
      else base
  else
    [Event.sizeQuery (BASE_ADDRESS ++ VERSION_URL)]

/-- The formatting the spec describes, on the extracted bytes:
`MAJOR.MINOR` (uppercase hex, minor zero-padded to two digits) with a
trailing zero minor digit suppressed.  Stated from the spec's words,
for comparison with `formatVersionCore`. -/
def specFormatVersionCore (major minor : Nat) : String :=
  let tail := if minor % 16 = 0 then [hexChar (minor / 16 % 16)] else hexByte2 minor
  String.mk (hexByte major ++ ['.'] ++ tail)

/-- The spec's formatting on an encoded version value. -/
def specFormatVersion (v : Nat) : String :=
  specFormatVersionCore (versionMajor v) (versionMinor v)

set_option maxRecDepth 8000 in
theorem formatVersionCore_eq_spec :
    ∀ M < 16, ∀ m < 256, formatVersionCore M m = specFormatVersionCore M m := by
  decide

/-- A filesystem: a partial map from absolute paths to contents. -/
def FS : Type := String → Option Blob

/-- The empty filesystem. -/
def emptyFS : FS := fun _ => none

/-- Whether `p` lies in the subtree rooted at `dir` (the directory
itself included).  The prefix test is on the character lists so that
it evaluates by structural recursion. -/
def underPath (dir p : String) : Bool :=
  p = dir || List.isPrefixOf (dir ++ "/").data p.data

/-- `removePath dir` (recursive removal): erase the whole subtree. -/
def removePathFS (dir : String) (fs : FS) : FS :=
  fun q => if underPath dir q then none else fs q

/-- `WriteFile p`: create or overwrite the file at `p`. -/
def writeFileFS (p : String) (b : Blob) (fs : FS) : FS :=
  fun q => if q = p then some b else fs q

/-- `sceIoMkdir p`: create a directory at `p`; if an entry already
exists there the call fails and the entry is left untouched. -/
def mkdirFS (p : String) (fs : FS) : FS :=
  fun q => if q = p then some ((fs p).getD Blob.dir) else fs q

/-- `sceIoRemove p`: erase the single entry at `p`. -/
def ioRemoveFS (p : String) (fs : FS) : FS :=
  fun q => if q = p then none else fs q

/-- Modelled from the spec: `makeHeadBin` (not under `src/`) writes the
generated header file at its fixed path under the staging directory. -/
def makeHeadBinFS (fs : FS) : FS :=
  writeFileFS HEAD_BIN_PATH Blob.headBin fs

/-- Filesystem effect of one event.  `promoteApp` "marks the staged
directory as promotable" (spec 4.3) and does not alter the staged
files; events without a filesystem side are identities. -/
def applyEvent (fs : FS) : Event → FS
  | Event.removePath p => removePathFS p fs
  | Event.mkdir p => mkdirFS p fs
  | Event.writeFile p b => writeFileFS p b fs
  | Event.makeHeadBin => makeHeadBinFS fs
  | Event.ioRemove p => ioRemoveFS p fs
  | _ => fs

/-- Filesystem after a trace of events, in order. -/
def applyEvents (fs : FS) (tr : List Event) : FS :=
  tr.foldl applyEvent fs

/-- Filesystem semantics of `installUpdater` (lines 89-106): run its
event trace. -/
def installUpdater (fs : FS) : FS :=
  applyEvents fs installUpdaterEvents

/-- The fixed contents `installUpdater` leaves under the staging
directory, independent of the starting filesystem. -/
def stagedContent (p : String) : Option Blob :=
  if p = HEAD_BIN_PATH then some Blob.headBin
  else if p = "ux0:data/pkg/sce_sys/param.sfo" then some Blob.paramSfo
  else if p = "ux0:data/pkg/eboot.bin" then some Blob.ebootBin
  else if p = "ux0:data/pkg/sce_sys" then some Blob.dir
  else if p = PACKAGE_DIR then some Blob.dir
  else none

theorem installUpdater_apply (fs : FS) (p : String) :
    installUpdater fs p =
      if underPath PACKAGE_DIR p then stagedContent p else fs p := by
  by_cases h1 : p = HEAD_BIN_PATH
  · subst h1; rfl
  by_cases h2 : p = "ux0:data/pkg/sce_sys/param.sfo"
  · subst h2; rfl
  by_cases h3 : p = "ux0:data/pkg/eboot.bin"
  · subst h3; rfl
  by_cases h4 : p = "ux0:data/pkg/sce_sys"
  · subst h4; rfl
  by_cases h5 : p = PACKAGE_DIR
  · subst h5; rfl
  simp only [installUpdater, applyEvents, installUpdaterEvents, List.foldl, applyEvent,
    makeHeadBinFS, writeFileFS, mkdirFS, removePathFS, stagedContent]
  simp only [if_neg h1, if_neg h2, if_neg h3, if_neg h4, if_neg h5]

/-- True on every event before the `archiveOpen` call. -/
def notArchiveOpen : Event → Bool
  | Event.archiveOpen _ => false
  | _ => true

/-- The part of a trace that runs before the archive is opened. -/
def eventsBeforeArchiveOpen (tr : List Event) : List Event :=
  tr.takeWhile notArchiveOpen

/-- A sample environment for a fully successful extraction run. -/
def sampleExtractEnv : ExtractEnv :=
  { archiveOpenRes := 0, size := 1000, folders := 2, files := 5,
    dirWeight := 100, spawnThid := 3, extractRes := 1, makeHeadBinRes := 0 }

/-- C8: calling `installUpdater` twice in a row, from any starting
filesystem state, leaves exactly the same filesystem as calling it
once: it always clears the staging subtree before writing the two
embedded blobs and the header file, so the staged result does not
depend on what was there before. -/
theorem installUpdater_idempotent (fs : FS) :
    installUpdater (installUpdater fs) = installUpdater fs := by
  funext p
  rw [installUpdater_apply, installUpdater_apply]
  by_cases h : underPath PACKAGE_DIR p = true
  · rw [if_pos h, if_pos h]
  · rw [if_neg h, if_neg h]

/-- Witness for C8 at the empty filesystem. -/
theorem installUpdater_idempotent_witness :
    installUpdater (installUpdater emptyFS) = installUpdater emptyFS :=
  installUpdater_idempotent emptyFS

theorem eventsBeforeArchiveOpen_extract (env : ExtractEnv) :
    eventsBeforeArchiveOpen (update_extract_thread env) =
      [Event.powerLock, Event.progressSet 0, Event.delay]
        ++ installUpdaterEvents
        ++ [Event.removePath PACKAGE_DIR, Event.mkdir PACKAGE_DIR,
            Event.archiveClearPassword] := by
  unfold update_extract_thread eventsBeforeArchiveOpen
  split_ifs <;>
    simp [installUpdaterEvents, notArchiveOpen, List.takeWhile, extractExitEvents]

/-- C9: in every run of `update_extract_thread`, after `installUpdater`
has staged the updater files, the staging subtree is recursively
removed and recreated empty again (lines 122-123) before the archive
is opened: when extraction is about to start, no entry strictly below
the staging directory is present any more. -/
theorem extract_stage_cleared_before_open (env : ExtractEnv) (fs0 : FS) (p : String)
    (hp : underPath PACKAGE_DIR p = true) (hne : p ≠ PACKAGE_DIR) :
    applyEvents fs0 (eventsBeforeArchiveOpen (update_extract_thread env)) p = none := by
  rw [eventsBeforeArchiveOpen_extract]
  simp only [applyEvents, installUpdaterEvents, List.cons_append, List.nil_append,
    List.foldl, applyEvent, makeHeadBinFS, writeFileFS, mkdirFS, removePathFS]
  simp only [if_neg hne, if_pos hp]

/-- Witness for C9: after the pre-open part of a successful run on the
empty filesystem, the updater's staged executable is gone. -/
theorem extract_stage_cleared_before_open_witness :
    underPath PACKAGE_DIR "ux0:data/pkg/eboot.bin" = true ∧
      "ux0:data/pkg/eboot.bin" ≠ PACKAGE_DIR ∧
      applyEvents emptyFS
        (eventsBeforeArchiveOpen (update_extract_thread sampleExtractEnv))
        "ux0:data/pkg/eboot.bin" = none :=
  ⟨by decide, by decide,
    extract_stage_cleared_before_open sampleExtractEnv emptyFS
      "ux0:data/pkg/eboot.bin" (by decide) (by decide)⟩

/-- Number of occurrences of an event in a trace. -/
def countE (e : Event) : List Event → Nat
  | [] => 0
  | x :: xs => (if x = e then 1 else 0) + countE e xs

/-- The last event of a trace. -/
def lastE : List Event → Option Event
  | [] => none
  | [x] => some x
  | _ :: x :: xs => lastE (x :: xs)

theorem countE_append (e : Event) (l1 l2 : List Event) :
    countE e (l1 ++ l2) = countE e l1 + countE e l2 := by
  induction l1 with
  | nil => simp [countE]
  | cons x xs ih => simp [countE, ih, Nat.add_assoc]

theorem extract_count_powerLock (env : ExtractEnv) :
    countE Event.powerLock (update_extract_thread env) = 1 := by
  unfold update_extract_thread extractExitEvents
  split_ifs <;> simp [installUpdaterEvents, countE, countE_append]

theorem extract_count_powerUnlock (env : ExtractEnv) :
    countE Event.powerUnlock (update_extract_thread env) = 1 := by
  unfold update_extract_thread extractExitEvents
  split_ifs <;> simp [installUpdaterEvents, countE, countE_append]

theorem extract_head (env : ExtractEnv) :
    (update_extract_thread env).head? = some Event.powerLock := by
  unfold update_extract_thread extractExitEvents
  split_ifs <;> simp [installUpdaterEvents]

theorem extract_last (env : ExtractEnv) :
    lastE (update_extract_thread env) = some Event.powerUnlock := by
  unfold update_extract_thread extractExitEvents
  split_ifs <;> simp [installUpdaterEvents, lastE]

theorem extract_join_helper (env : ExtractEnv)
    (harch : ¬env.archiveOpenRes < 0) (hthid : 0 ≤ env.spawnThid) :
    ∃ l, update_extract_thread env = l ++ [Event.waitThreadEnd, Event.powerUnlock] := by
  unfold update_extract_thread extractExitEvents
  rw [if_neg harch]
  simp only [if_pos hthid]
  split_ifs with h1 h2 <;> exact ⟨_, rfl⟩

theorem extract_no_spawn_on_open_failure (env : ExtractEnv)
    (harch : env.archiveOpenRes < 0) (m : Nat) :
    Event.spawnWorker m ∉ update_extract_thread env := by
  unfold update_extract_thread extractExitEvents
  rw [if_pos harch]
  simp [installUpdaterEvents]

/-- C1: in every run of `update_extract_thread`, the power lock is
acquired exactly once (and first), released exactly once (and last),
and whenever the secondary progress-reporting worker was spawned
(`createStartUpdateThread` was reached and returned a valid id) it is
joined (`sceKernelWaitThreadEnd`) immediately before the single
release and the return. -/
theorem extract_power_lock_discipline (env : ExtractEnv) :
    countE Event.powerLock (update_extract_thread env) = 1 ∧
    countE Event.powerUnlock (update_extract_thread env) = 1 ∧
    (update_extract_thread env).head? = some Event.powerLock ∧
    lastE (update_extract_thread env) = some Event.powerUnlock ∧
    ((∃ m, Event.spawnWorker m ∈ update_extract_thread env) ∧ 0 ≤ env.spawnThid →
      ∃ l, update_extract_thread env = l ++ [Event.waitThreadEnd, Event.powerUnlock]) := by
  refine ⟨extract_count_powerLock env, extract_count_powerUnlock env,
    extract_head env, extract_last env, ?_⟩
  rintro ⟨⟨m, hm⟩, hthid⟩
  by_cases harch : env.archiveOpenRes < 0
  · exact absurd hm (extract_no_spawn_on_open_failure env harch m)
  · exact extract_join_helper env harch hthid

/-- Witness for C1 at a concrete successful run. -/
theorem extract_power_lock_discipline_witness :
    countE Event.powerLock (update_extract_thread sampleExtractEnv) = 1 ∧
    countE Event.powerUnlock (update_extract_thread sampleExtractEnv) = 1 ∧
    (update_extract_thread sampleExtractEnv).head? = some Event.powerLock ∧
    lastE (update_extract_thread sampleExtractEnv) = some Event.powerUnlock ∧
    ((∃ m, Event.spawnWorker m ∈ update_extract_thread sampleExtractEnv) ∧
        0 ≤ sampleExtractEnv.spawnThid →
      ∃ l, update_extract_thread sampleExtractEnv
            = l ++ [Event.waitThreadEnd, Event.powerUnlock]) :=
  extract_power_lock_discipline sampleExtractEnv

/-- Modelled from the spec: the progress-reporting worker (spawned via
`createStartUpdateThread`, in `io_process.c`, not under `src/`) "maps
the ratio onto a 0-100 percentage". -/
def reportedPercent (value maxv : Nat) : Nat :=
  value * 100 / maxv

/-- An environment whose archive open fails. -/
def failOpenEnv : ExtractEnv :=
  { sampleExtractEnv with archiveOpenRes := -1 }

/-- An environment whose extraction call returns a non-positive
result. -/
def cancelEnv : ExtractEnv :=
  { sampleExtractEnv with extractRes := 0 }

/-- C3: on each fatal-I/O branch of `update_extract_thread` — archive
open failed, extraction failed/cancelled, or `makeHeadBin` failed —
the run shows the generic error dialog keyed by that branch's numeric
result code, and the dialog step it leaves behind is a terminal
failure/cancel marker. -/
theorem extract_fatal_error_reporting (env : ExtractEnv) (s0 : DialogStep) :
    (env.archiveOpenRes < 0 →
      Event.errorDialog env.archiveOpenRes ∈ update_extract_thread env ∧
      isTerminalMark (stepAfterEvents s0 (update_extract_thread env)) = true) ∧
    (¬env.archiveOpenRes < 0 → env.extractRes ≤ 0 →
      Event.errorDialog env.extractRes ∈ update_extract_thread env ∧
      isTerminalMark (stepAfterEvents s0 (update_extract_thread env)) = true) ∧
    (¬env.archiveOpenRes < 0 → ¬env.extractRes ≤ 0 → env.makeHeadBinRes < 0 →
      Event.errorDialog env.makeHeadBinRes ∈ update_extract_thread env ∧
      isTerminalMark (stepAfterEvents s0 (update_extract_thread env)) = true) := by
  unfold update_extract_thread extractExitEvents
  refine ⟨fun h => ?_, fun h1 h2 => ?_, fun h1 h2 h3 => ?_⟩
  · rw [if_pos h]
    constructor <;>
      simp [installUpdaterEvents, stepAfterEvents, errorDialogStep, isTerminalMark]
  · rw [if_neg h1, if_pos h2]
    split_ifs <;> constructor <;>
      simp [installUpdaterEvents, stepAfterEvents, errorDialogStep, isTerminalMark]
  · rw [if_neg h1, if_neg h2, if_pos h3]
    split_ifs <;> constructor <;>
      simp [installUpdaterEvents, stepAfterEvents, errorDialogStep, isTerminalMark]

/-- Witness for C3 on the archive-open-failure branch. -/
theorem extract_fatal_error_reporting_witness :
    Event.errorDialog failOpenEnv.archiveOpenRes ∈ update_extract_thread failOpenEnv ∧
    isTerminalMark
      (stepAfterEvents DialogStep.NONE (update_extract_thread failOpenEnv)) = true :=
  (extract_fatal_error_reporting failOpenEnv DialogStep.NONE).1 (by decide)

/-- C6: whenever `extractArchivePath` returns a non-positive result,
the run closes the wait dialog, sets the dialog step to `CANCELED`,
surfaces the error dialog with that result code, and goes to cleanup:
none of the finalization actions (deleting the update file, pushing
progress to 100%, closing the dialog normally, marking `EXTRACTED`)
happens, and the trace still ends with the power unlock. -/
theorem extract_cancel_on_nonpositive (env : ExtractEnv)
    (harch : 0 ≤ env.archiveOpenRes) (hext : env.extractRes ≤ 0) :
    Event.closeWaitDialog ∈ update_extract_thread env ∧
    Event.setDialogStep DialogStep.CANCELED ∈ update_extract_thread env ∧
    Event.errorDialog env.extractRes ∈ update_extract_thread env ∧
    Event.ioRemove DUALSHELLCOMMANDER_UPDATE_FILE ∉ update_extract_thread env ∧
    Event.progressSet 100 ∉ update_extract_thread env ∧
    Event.msgDialogClose ∉ update_extract_thread env ∧
    Event.setDialogStep DialogStep.EXTRACTED ∉ update_extract_thread env ∧
    lastE (update_extract_thread env) = some Event.powerUnlock := by
  unfold update_extract_thread extractExitEvents
  rw [if_neg (by omega : ¬env.archiveOpenRes < 0), if_pos hext]
  split_ifs <;>
    refine ⟨?_, ?_, ?_, ?_, ?_, ?_, ?_, ?_⟩ <;>
    simp [installUpdaterEvents, lastE, DUALSHELLCOMMANDER_UPDATE_FILE, PACKAGE_DIR]

/-- Witness for C6. -/
theorem extract_cancel_on_nonpositive_witness :
    Event.closeWaitDialog ∈ update_extract_thread cancelEnv ∧
    Event.setDialogStep DialogStep.CANCELED ∈ update_extract_thread cancelEnv ∧
    Event.errorDialog cancelEnv.extractRes ∈ update_extract_thread cancelEnv ∧
    Event.ioRemove DUALSHELLCOMMANDER_UPDATE_FILE ∉ update_extract_thread cancelEnv ∧
    Event.progressSet 100 ∉ update_extract_thread cancelEnv ∧
    Event.msgDialogClose ∉ update_extract_thread cancelEnv ∧
    Event.setDialogStep DialogStep.EXTRACTED ∉ update_extract_thread cancelEnv ∧
    lastE (update_extract_thread cancelEnv) = some Event.powerUnlock :=
  extract_cancel_on_nonpositive cancelEnv (by decide) (by decide)

/-- C4: `update_extract_thread` computes the progress maximum as
`size + folders * weight` (spawning the reporting worker with exactly
that bound; with size 1000, 2 folders and weight 100 the bound is
1200); on a successful run the displayed progress is driven to 100%
and the dialog step becomes `EXTRACTED`, and a progress counter that
reaches exactly the maximum is reported as 100 percent. -/
theorem extract_progress_and_extracted (env : ExtractEnv) (s0 : DialogStep)
    (harch : 0 ≤ env.archiveOpenRes) (hext : 0 < env.extractRes)
    (hhead : 0 ≤ env.makeHeadBinRes) :
    Event.spawnWorker (progressMax env.size env.folders env.dirWeight)
        ∈ update_extract_thread env ∧
    Event.progressSet 100 ∈ update_extract_thread env ∧
    stepAfterEvents s0 (update_extract_thread env) = DialogStep.EXTRACTED ∧
    progressMax 1000 2 100 = 1200 ∧
    (0 < progressMax env.size env.folders env.dirWeight →
      reportedPercent (progressMax env.size env.folders env.dirWeight)
        (progressMax env.size env.folders env.dirWeight) = 100) := by
  unfold update_extract_thread extractExitEvents
  rw [if_neg (by omega : ¬env.archiveOpenRes < 0),
    if_neg (by omega : ¬env.extractRes ≤ 0),
    if_neg (by omega : ¬env.makeHeadBinRes < 0)]
  split_ifs <;>
    refine ⟨?_, ?_, ?_, by simp [progressMax], fun hpos => ?_⟩ <;>
    first
      | simp [installUpdaterEvents, stepAfterEvents, errorDialogStep]
      | (rw [reportedPercent, Nat.mul_comm]
         exact Nat.mul_div_cancel 100 hpos)

/-- Witness for C4 at the sample successful run. -/
theorem extract_progress_and_extracted_witness :
    Event.spawnWorker
        (progressMax sampleExtractEnv.size sampleExtractEnv.folders
          sampleExtractEnv.dirWeight)
        ∈ update_extract_thread sampleExtractEnv ∧
    Event.progressSet 100 ∈ update_extract_thread sampleExtractEnv ∧
    stepAfterEvents DialogStep.NONE (update_extract_thread sampleExtractEnv)
        = DialogStep.EXTRACTED ∧
    progressMax 1000 2 100 = 1200 ∧
    (0 < progressMax sampleExtractEnv.size sampleExtractEnv.folders
          sampleExtractEnv.dirWeight →
      reportedPercent
        (progressMax sampleExtractEnv.size sampleExtractEnv.folders
          sampleExtractEnv.dirWeight)
        (progressMax sampleExtractEnv.size sampleExtractEnv.folders
          sampleExtractEnv.dirWeight) = 100) :=
  extract_progress_and_extracted sampleExtractEnv DialogStep.NONE
    (by decide) (by decide) (by decide)

/-- A check run that reaches the comparison with a fresh remote
version and an idle dialog. -/
def offerEnv : CheckEnv :=
  { sizeQueryRes := 0, remoteSize := 4, downloadRes := 1, readOk := true,
    readVersion := 0x01200000, step0 := DialogStep.NONE,
    userResponse := DialogStep.DOWNLOADED }

/-- C2: when the descriptor size check passed, the download succeeded,
the read delivered the remote version and no dialog is running, a
remote version strictly greater than the running version makes
`network_update_thread` set the dialog step to `UPDATE_QUESTION`
(the confirmation prompt), while a remote version less than or equal
to the running version makes it abort without writing the dialog step
at all. -/
theorem check_update_offer (running : Nat) (env : CheckEnv)
    (hq : 0 ≤ env.sizeQueryRes) (hs : env.remoteSize = 4)
    (hd : 0 < env.downloadRes) (hr : env.readOk = true)
    (h0 : env.step0 = DialogStep.NONE) :
    (running < env.readVersion →
      Event.setDialogStep DialogStep.UPDATE_QUESTION
        ∈ network_update_thread running env) ∧
    (env.readVersion ≤ running →
      (∀ s, Event.setDialogStep s ∉ network_update_thread running env) ∧
      stepAfterEvents env.step0 (network_update_thread running env) = env.step0) := by
  unfold network_update_thread
  rw [if_pos ⟨hq, hs⟩, if_neg (by omega : ¬env.downloadRes ≤ 0), hr, if_pos h0]
  constructor
  · intro hv
    rw [if_pos (by simpa using hv)]
    split_ifs <;> simp
  · intro hv
    rw [if_neg (by simpa using Nat.not_lt.mpr hv)]
    refine ⟨fun s => ?_, ?_⟩ <;> simp [stepAfterEvents]

/-- Witness for C2 (offer branch) at running version `0x01000000`. -/
theorem check_update_offer_witness :
    Event.setDialogStep DialogStep.UPDATE_QUESTION
      ∈ network_update_thread 0x01000000 offerEnv :=
  (check_update_offer 0x01000000 offerEnv (by decide) (by decide) (by decide)
    (by decide) (by decide)).1 (by decide)

/-- C7: if the dialog step observed at check time is anything other
than `NONE`, `network_update_thread` never prompts (no message dialog,
no dialog-step write) and the dialog step is left unchanged, whatever
the remote version was. -/
theorem check_abort_when_dialog_busy (running : Nat) (env : CheckEnv)
    (h0 : env.step0 ≠ DialogStep.NONE) :
    (∀ s, Event.setDialogStep s ∉ network_update_thread running env) ∧
    (∀ str, Event.initMessageDialog str ∉ network_update_thread running env) ∧
    stepAfterEvents env.step0 (network_update_thread running env) = env.step0 := by
  unfold network_update_thread
  split_ifs <;>
    first
      | exact absurd ‹env.step0 = DialogStep.NONE› h0
      | refine ⟨fun s => ?_, fun str => ?_, ?_⟩ <;> simp [stepAfterEvents]

/-- Witness for C7: a busy dialog (`DOWNLOADED`) blocks the prompt. -/
theorem check_abort_when_dialog_busy_witness :
    (∀ s, Event.setDialogStep s
      ∉ network_update_thread 0 { offerEnv with step0 := DialogStep.DOWNLOADED }) ∧
    (∀ str, Event.initMessageDialog str
      ∉ network_update_thread 0 { offerEnv with step0 := DialogStep.DOWNLOADED }) ∧
    stepAfterEvents DialogStep.DOWNLOADED
        (network_update_thread 0 { offerEnv with step0 := DialogStep.DOWNLOADED })
      = DialogStep.DOWNLOADED :=
  check_abort_when_dialog_busy 0 { offerEnv with step0 := DialogStep.DOWNLOADED }
    (by decide)

/-- C10: the result of `ReadFile` on the downloaded descriptor is
never checked; the version variable stays at its initializer 0 when
the read delivers nothing, so the comparison `version > running`
fails, the check aborts exactly as in the "no update available" case
— silently, with no prompt, no dialog-step write and no error dialog
— and the temporary descriptor file has still been deleted. -/
theorem check_silent_abort_on_failed_read (running : Nat) (env : CheckEnv)
    (hq : 0 ≤ env.sizeQueryRes) (hs : env.remoteSize = 4)
    (hd : 0 < env.downloadRes) (hr : env.readOk = false) :
    Event.ioRemove DUALSHELLCOMMANDER_VERSION_FILE ∈ network_update_thread running env ∧
    (∀ s, Event.setDialogStep s ∉ network_update_thread running env) ∧
    (∀ str, Event.initMessageDialog str ∉ network_update_thread running env) ∧
    (∀ c, Event.errorDialog c ∉ network_update_thread running env) ∧
    stepAfterEvents env.step0 (network_update_thread running env) = env.step0 := by
  unfold network_update_thread
  rw [if_pos ⟨hq, hs⟩, if_neg (by omega : ¬env.downloadRes ≤ 0), hr]
  simp only [Bool.false_eq_true, if_false]
  split_ifs <;>
    first
      | omega
      | refine ⟨?_, fun s => ?_, fun str => ?_, fun c => ?_, ?_⟩ <;>
          simp [stepAfterEvents]

/-- Witness for C10. -/
theorem check_silent_abort_on_failed_read_witness :
    Event.ioRemove DUALSHELLCOMMANDER_VERSION_FILE
        ∈ network_update_thread 0 { offerEnv with readOk := false } ∧
    (∀ s, Event.setDialogStep s
        ∉ network_update_thread 0 { offerEnv with readOk := false }) ∧
    (∀ str, Event.initMessageDialog str
        ∉ network_update_thread 0 { offerEnv with readOk := false }) ∧
    (∀ c, Event.errorDialog c
        ∉ network_update_thread 0 { offerEnv with readOk := false }) ∧
    stepAfterEvents DialogStep.NONE
        (network_update_thread 0 { offerEnv with readOk := false })
      = DialogStep.NONE :=
  check_silent_abort_on_failed_read 0 { offerEnv with readOk := false }
    (by decide) (by decide) (by decide) (by decide)

/-- C5 counterexample: for the encoded version `0x10200000` (major
byte `0x10`, two hex digits) the claimed formatting — `MAJOR.MINOR`
with the trailing zero minor digit suppressed, i.e. `"10.2"` — does
not match what the code produces: the truncation test looks at the
fixed string index 3, which for a two-digit major is the first minor
digit, so nothing is suppressed and the string stays `"10.20"`. -/
theorem version_format_counterexample :
    formatVersion 0x10200000 = "10.20" ∧
    specFormatVersion 0x10200000 = "10.2" ∧
    formatVersion 0x10200000 ≠ specFormatVersion 0x10200000 := by
  refine ⟨by decide, by decide, by decide⟩

/-- C5 amended: for every encoded version whose major byte is a single
hex digit (at most `0xF`), the version string is `MAJOR.MINOR`
(uppercase hex, minor zero-padded to two digits) with a trailing zero
minor digit suppressed; in particular `0x01200000` formats as `"1.2"`
and `0x01050000` as `"1.05"`. -/
theorem version_format_amended :
    (∀ v : Nat, versionMajor v ≤ 15 → formatVersion v = specFormatVersion v) ∧
    formatVersion 0x01200000 = "1.2" ∧
    formatVersion 0x01050000 = "1.05" := by
  refine ⟨?_, by decide, by decide⟩
  intro v hv
  exact formatVersionCore_eq_spec (versionMajor v) (by omega)
    (versionMinor v) (Nat.mod_lt _ (by norm_num))

/-- Witness for the amended C5 at `0x01050000`. -/
theorem version_format_amended_witness :
    versionMajor 0x01050000 ≤ 15 ∧
    formatVersion 0x01050000 = specFormatVersion 0x01050000 :=
  ⟨by decide, version_format_amended.1 0x01050000 (by decide)⟩
